import Mathlib

/-!
Verification of the uptime-monitoring service (Telegram uptime bot).

This file gives a shallow embedding of the core components of the
repository — the result recorder (src/bot/models.py), the alert pipeline
(src/monitoring/alerts.py), the HTTP checker retry loop
(src/monitoring/monitor.py), the periodic job scheduler and the daily
statistics aggregation (src/monitoring/scheduler.py) — and proves or
refutes the specification claims about them.

Conventions of the embedding:
* Python timestamps (datetime.utcnow / time.time) become explicit Nat or
  Int parameters threaded through the functions.
* Python floats used for response times / percentages become Rat; the
  claims settled here never depend on float rounding.
* Python truthiness tests (if x:) on optional values are embedded
  explicitly via the optTruthy helpers below.
* Python dicts keyed by ids become association lists with first-match
  lookup, mirroring insertion-order semantics.
-/

namespace UptimeBot

/-! ## Python-truthiness helpers -/

/-- Python truthiness of an optional int: None and 0 are falsy. -/
def optIntTruthy : Option Int → Bool
  | none => false
  | some n => n != 0

/-- Python truthiness of an optional float: None and 0.0 are falsy. -/
def optRatTruthy : Option Rat → Bool
  | none => false
  | some q => q != 0

/-- Python truthiness of an optional string: None and the empty string are falsy. -/
def optStrTruthy : Option String → Bool
  | none => false
  | some s => !s.isEmpty

/-! ## Substring test (Python's `pat in body`) -/

/-- Does the pattern occur at the head of the list? -/
def headMatch : List Char → List Char → Bool
  | [], _ => true
  | _ :: _, [] => false
  | p :: ps, c :: cs => p == c && headMatch ps cs

/-- Does the pattern occur contiguously anywhere in the list?
This is Python's substring containment test (pat in body). -/
def subOccurs : List Char → List Char → Bool
  | pat, [] => headMatch pat []
  | pat, c :: cs => headMatch pat (c :: cs) || subOccurs pat cs

/-- Python's string containment test: pat in body. -/
def strIn (pat body : String) : Bool :=
  subOccurs pat.data body.data

/-! ## The monitored-link model (src/bot/models.py, class MonitoredLink)

Only the columns read or written by record_check and by the scheduler's
statistics aggregation are carried; defaults follow the column defaults. -/

structure MonitoredLink where
  ping_interval : Nat := 300
  is_active : Bool := true
  last_checked : Option Nat := none
  next_check : Option Nat := none
  last_status_code : Option Int := none
  last_response_time : Option Rat := none
  is_up : Bool := true
  uptime_percentage : Rat := 100
  total_checks : Nat := 0
  successful_checks : Nat := 0
  failed_checks : Nat := 0
  last_downtime : Option Nat := none
  total_downtime_seconds : Nat := 0
  downtime_events : Nat := 0
  current_downtime_start : Option Nat := none
  avg_response_time : Option Rat := none
  min_response_time : Option Rat := none
  max_response_time : Option Rat := none
  expected_status_codes : List Nat := [200]
  expected_content : Option String := none
  deriving Repr, DecidableEq

namespace MonitoredLink

/-- MonitoredLink._update_response_time_stats (models.py:531-543).
Called after total_checks has already been incremented. -/
def update_response_time_stats (l : MonitoredLink) (rt : Rat) : MonitoredLink :=
  let l1 :=
    match l.avg_response_time with
    | none => { l with avg_response_time := some rt }
    | some avg =>
        let newAvg : Rat := (avg * ((l.total_checks - 1 : Nat) : Rat) + rt) / (l.total_checks : Rat)
        { l with avg_response_time := some newAvg }
  let l2 :=
    match l1.min_response_time with
    | none => { l1 with min_response_time := some rt }
    | some m => if rt < m then { l1 with min_response_time := some rt } else l1
  match l2.max_response_time with
  | none => { l2 with max_response_time := some rt }
  | some m => if rt > m then { l2 with max_response_time := some rt } else l2

/-- MonitoredLink.calculate_uptime_percentage (models.py:490-495).
When total_checks is zero the method returns 100.0 without writing the
uptime_percentage column. -/
def calculate_uptime_percentage (l : MonitoredLink) : MonitoredLink :=
  if l.total_checks == 0 then l
  else { l with uptime_percentage := ((l.successful_checks : Rat) / (l.total_checks : Rat)) * 100 }

/-- MonitoredLink.calculate_next_check (models.py:545-547):
next_check := utcnow + ping_interval. The current time is the explicit
parameter now. -/
def calculate_next_check (l : MonitoredLink) (now : Nat) : MonitoredLink :=
  { l with next_check := some (now + l.ping_interval) }

/-- The success/failure branch of record_check (models.py:503-519): updates
the success/failure counters, the up/down flag and the downtime bookkeeping.
Its input is the link state with total_checks already incremented. -/
def record_check_core (l0 : MonitoredLink) (success : Bool) (now : Nat) : MonitoredLink :=
  if success then
    let a := { l0 with successful_checks := l0.successful_checks + 1 }
    if !a.is_up then
      -- Recovery from downtime
      let b := { a with is_up := true }
      match b.current_downtime_start with
      | some start =>
          { b with total_downtime_seconds := b.total_downtime_seconds + (now - start),
                   current_downtime_start := none }
      | none => b
    else a
  else
    let a := { l0 with failed_checks := l0.failed_checks + 1 }
    if a.is_up then
      -- Start of downtime
      { a with is_up := false, last_downtime := some now,
               current_downtime_start := some now,
               downtime_events := a.downtime_events + 1 }
    else a

/-- The two Python-truthy guarded assignments of record_check
(models.py:521-526): last_status_code and the response-time statistics. -/
def record_status (l : MonitoredLink) (status_code : Option Int) : MonitoredLink :=
  if optIntTruthy status_code then { l with last_status_code := status_code } else l

/-- The response-time branch of record_check (models.py:524-526). -/
def record_response (l : MonitoredLink) (response_time : Option Rat) : MonitoredLink :=
  if optRatTruthy response_time then
    update_response_time_stats { l with last_response_time := response_time }
      (response_time.getD 0)
  else l

/-- MonitoredLink.record_check (models.py:497-529), with the calls to
datetime.utcnow() replaced by the explicit parameter now. It increments
total_checks, applies the success/failure branch, records status code and
response time, recomputes the uptime percentage and sets next_check. -/
def record_check (l : MonitoredLink) (success : Bool) (status_code : Option Int)
    (response_time : Option Rat) (now : Nat) : MonitoredLink :=
  let l0 := { l with total_checks := l.total_checks + 1, last_checked := some now }
  let l1 := record_check_core l0 success now
  let l2 := record_status l1 status_code
  let l3 := record_response l2 response_time
  calculate_next_check (calculate_uptime_percentage l3) now

end MonitoredLink

/-! ## Theorems about the result recorder (claims C3 and C7) -/

namespace MonitoredLink

/-- The auxiliary response-time statistics update touches only the
avg/min/max response-time fields. -/
lemma urts_preserves (l : MonitoredLink) (rt : Rat) :
    (l.update_response_time_stats rt).total_checks = l.total_checks
  ∧ (l.update_response_time_stats rt).successful_checks = l.successful_checks
  ∧ (l.update_response_time_stats rt).failed_checks = l.failed_checks
  ∧ (l.update_response_time_stats rt).is_up = l.is_up
  ∧ (l.update_response_time_stats rt).current_downtime_start = l.current_downtime_start
  ∧ (l.update_response_time_stats rt).ping_interval = l.ping_interval := by
  obtain ⟨pi, ia, lc, nc, lsc, lrt, iu, up, tc, sc, fc, ld, tds, de, cds, avg, mn, mx, esc, ec⟩ := l
  unfold update_response_time_stats
  cases avg <;> cases mn <;> cases mx <;> dsimp only <;> repeat' split
  all_goals exact ⟨rfl, rfl, rfl, rfl, rfl, rfl⟩

/-- The status-code assignment touches only last_status_code. -/
lemma record_status_preserves (l : MonitoredLink) (c : Option Int) :
    (l.record_status c).total_checks = l.total_checks
  ∧ (l.record_status c).successful_checks = l.successful_checks
  ∧ (l.record_status c).failed_checks = l.failed_checks
  ∧ (l.record_status c).is_up = l.is_up
  ∧ (l.record_status c).current_downtime_start = l.current_downtime_start
  ∧ (l.record_status c).ping_interval = l.ping_interval := by
  unfold record_status
  split
  all_goals exact ⟨rfl, rfl, rfl, rfl, rfl, rfl⟩

/-- The response-time assignment touches only last_response_time and the
avg/min/max statistics. -/
lemma record_response_preserves (l : MonitoredLink) (r : Option Rat) :
    (l.record_response r).total_checks = l.total_checks
  ∧ (l.record_response r).successful_checks = l.successful_checks
  ∧ (l.record_response r).failed_checks = l.failed_checks
  ∧ (l.record_response r).is_up = l.is_up
  ∧ (l.record_response r).current_downtime_start = l.current_downtime_start
  ∧ (l.record_response r).ping_interval = l.ping_interval := by
  unfold record_response
  split
  case isTrue h =>
    have hu := urts_preserves { l with last_response_time := r } (r.getD 0)
    simpa using hu
  case isFalse h => simp

/-- Recomputing the uptime percentage touches only uptime_percentage. -/
lemma cup_preserves (l : MonitoredLink) :
    (l.calculate_uptime_percentage).total_checks = l.total_checks
  ∧ (l.calculate_uptime_percentage).successful_checks = l.successful_checks
  ∧ (l.calculate_uptime_percentage).failed_checks = l.failed_checks
  ∧ (l.calculate_uptime_percentage).is_up = l.is_up
  ∧ (l.calculate_uptime_percentage).current_downtime_start = l.current_downtime_start
  ∧ (l.calculate_uptime_percentage).ping_interval = l.ping_interval := by
  unfold calculate_uptime_percentage
  split
  all_goals exact ⟨rfl, rfl, rfl, rfl, rfl, rfl⟩

/-- Scheduling the next check touches only next_check. -/
lemma cnc_preserves (l : MonitoredLink) (now : Nat) :
    (l.calculate_next_check now).total_checks = l.total_checks
  ∧ (l.calculate_next_check now).successful_checks = l.successful_checks
  ∧ (l.calculate_next_check now).failed_checks = l.failed_checks
  ∧ (l.calculate_next_check now).is_up = l.is_up
  ∧ (l.calculate_next_check now).current_downtime_start = l.current_downtime_start := by
  unfold calculate_next_check
  exact ⟨rfl, rfl, rfl, rfl, rfl⟩

/-- The success/failure branch: total_checks is untouched, exactly one of
the success/failure counters is incremented, and the up/down flag stays in
sync with current_downtime_start. -/
lemma core_spec (l0 : MonitoredLink) (success : Bool) (now : Nat)
    (h2 : l0.is_up = false ↔ l0.current_downtime_start ≠ none) :
    (record_check_core l0 success now).total_checks = l0.total_checks
  ∧ (record_check_core l0 success now).successful_checks
      + (record_check_core l0 success now).failed_checks
      = l0.successful_checks + l0.failed_checks + 1
  ∧ ((record_check_core l0 success now).is_up = false
      ↔ (record_check_core l0 success now).current_downtime_start ≠ none)
  ∧ (record_check_core l0 success now).ping_interval = l0.ping_interval := by
  obtain ⟨pi, ia, lc, nc, lsc, lrt, iu, up, tc, sc, fc, ld, tds, de, cds, avg, mn, mx, esc, ec⟩ := l0
  unfold record_check_core
  cases success <;> cases iu <;> cases cds <;> dsimp only at h2 ⊢
  all_goals first
    | exact ⟨rfl, by omega, by simp, rfl⟩
    | (simp_all <;> omega)

/-- The success/failure branch never writes ping_interval. -/
lemma core_interval (l0 : MonitoredLink) (success : Bool) (now : Nat) :
    (record_check_core l0 success now).ping_interval = l0.ping_interval := by
  obtain ⟨pi, ia, lc, nc, lsc, lrt, iu, up, tc, sc, fc, ld, tds, de, cds, avg, mn, mx, esc, ec⟩ := l0
  unfold record_check_core
  cases success <;> cases iu <;> cases cds <;> dsimp only <;> repeat' split
  all_goals rfl

end MonitoredLink

/-- C3: applying the recorder's state update record_check to a target state
satisfying the two data-model invariants (total = successful + failed, and
isUp = false iff currentDowntimeStart is non-null) preserves both invariants,
for every probe outcome. -/
theorem record_check_preserves_invariants (l : MonitoredLink) (success : Bool)
    (status_code : Option Int) (response_time : Option Rat) (now : Nat)
    (h1 : l.total_checks = l.successful_checks + l.failed_checks)
    (h2 : l.is_up = false ↔ l.current_downtime_start ≠ none) :
    (l.record_check success status_code response_time now).total_checks
      = (l.record_check success status_code response_time now).successful_checks
        + (l.record_check success status_code response_time now).failed_checks
    ∧ ((l.record_check success status_code response_time now).is_up = false
        ↔ (l.record_check success status_code response_time now).current_downtime_start ≠ none) := by
  unfold MonitoredLink.record_check
  have hc := MonitoredLink.core_spec
    { l with total_checks := l.total_checks + 1, last_checked := some now } success now (by simpa using h2)
  obtain ⟨hc1, hc2, hc3, -⟩ := hc
  obtain ⟨hs1, hs2, hs3, hs4, hs5, -⟩ := MonitoredLink.record_status_preserves
    (MonitoredLink.record_check_core
      { l with total_checks := l.total_checks + 1, last_checked := some now } success now) status_code
  obtain ⟨hr1, hr2, hr3, hr4, hr5, -⟩ := MonitoredLink.record_response_preserves
    (MonitoredLink.record_status
      (MonitoredLink.record_check_core
        { l with total_checks := l.total_checks + 1, last_checked := some now } success now)
      status_code) response_time
  obtain ⟨hp1, hp2, hp3, hp4, hp5, -⟩ := MonitoredLink.cup_preserves
    (MonitoredLink.record_response
      (MonitoredLink.record_status
        (MonitoredLink.record_check_core
          { l with total_checks := l.total_checks + 1, last_checked := some now } success now)
        status_code) response_time)
  obtain ⟨hn1, hn2, hn3, hn4, hn5⟩ := MonitoredLink.cnc_preserves
    (MonitoredLink.calculate_uptime_percentage
      (MonitoredLink.record_response
        (MonitoredLink.record_status
          (MonitoredLink.record_check_core
            { l with total_checks := l.total_checks + 1, last_checked := some now } success now)
          status_code) response_time)) now
  constructor
  · rw [hn1, hn2, hn3, hp1, hp2, hp3, hr1, hr2, hr3, hs1, hs2, hs3, hc1, hc2]
    show l.total_checks + 1 = l.successful_checks + l.failed_checks + 1
    omega
  · rw [hn4, hn5, hp4, hp5, hr4, hr5, hs4, hs5]
    exact hc3

/-- C7: after any recorded probe at time now, the target's next_check is
exactly now + ping_interval, for every probe outcome. -/
theorem record_check_sets_next_due (l : MonitoredLink) (success : Bool)
    (status_code : Option Int) (response_time : Option Rat) (now : Nat) :
    (l.record_check success status_code response_time now).next_check
      = some (now + l.ping_interval) := by
  unfold MonitoredLink.record_check MonitoredLink.calculate_next_check
  have hc := MonitoredLink.core_interval
    { l with total_checks := l.total_checks + 1, last_checked := some now } success now
  obtain ⟨-, -, -, -, -, hs⟩ := MonitoredLink.record_status_preserves
    (MonitoredLink.record_check_core
      { l with total_checks := l.total_checks + 1, last_checked := some now } success now) status_code
  obtain ⟨-, -, -, -, -, hr⟩ := MonitoredLink.record_response_preserves
    (MonitoredLink.record_status
      (MonitoredLink.record_check_core
        { l with total_checks := l.total_checks + 1, last_checked := some now } success now)
      status_code) response_time
  obtain ⟨-, -, -, -, -, hp⟩ := MonitoredLink.cup_preserves
    (MonitoredLink.record_response
      (MonitoredLink.record_status
        (MonitoredLink.record_check_core
          { l with total_checks := l.total_checks + 1, last_checked := some now } success now)
        status_code) response_time)
  simp only []
  rw [hp, hr, hs, hc]

/-- A concrete link state used by the witnesses: the column defaults of a
freshly created MonitoredLink row. -/
def sampleLink : MonitoredLink := {}

/-- Witness: the invariant-preservation theorem applied to the default link
state, a failed probe with status 503, response time 2 s, at time 100. -/
theorem record_check_preserves_invariants_witness :
    ((sampleLink.record_check false (some 503) (some 2) 100).total_checks
      = (sampleLink.record_check false (some 503) (some 2) 100).successful_checks
        + (sampleLink.record_check false (some 503) (some 2) 100).failed_checks)
    ∧ ((sampleLink.record_check false (some 503) (some 2) 100).is_up = false
        ↔ (sampleLink.record_check false (some 503) (some 2) 100).current_downtime_start ≠ none) :=
  record_check_preserves_invariants sampleLink false (some 503) (some 2) 100
    (by decide) (by decide)

/-! ## The alert pipeline (src/monitoring/alerts.py, class AlertManager)

Timestamps here are Int values (time.time() epoch seconds). The two
engine-local maps (cooldown map, per-user rate-limit deques) are
association lists with first-match lookup; delivery to Telegram is
abstracted by an environment of per-attempt outcomes and a flag telling
whether the user lookup succeeded. Persisting an Alert row is modelled as
always succeeding (DB faults are out of scope of the claims settled here). -/

/-- database.models.AlertType. -/
inductive AlertKind where
  | down
  | up
  | slow
  | ssl_expiry
  | maintenance
  | error
  | warning
  deriving Repr, DecidableEq

/-- AlertPayload (alerts.py:64-78): the queue item fields that the
dispatch pipeline inspects. -/
structure AlertPayload where
  user_id : Nat
  link_id : Option Nat
  alert_type : AlertKind
  deriving Repr, DecidableEq

/-- The AlertManager settings read in __init__ (alerts.py:108-117). -/
structure AlertConfig where
  cooldown_seconds : Int
  max_alerts_per_hour : Nat
  max_retries : Nat
  deriving Repr, DecidableEq

/-- dict.get(link_id, 0) on the cooldown map (alerts.py:309). -/
def cdGet (m : List (Nat × Int)) (k : Nat) : Int :=
  match m.find? (fun q => q.1 == k) with
  | some q => q.2
  | none => 0

/-- dict assignment on the cooldown map (alerts.py:315). -/
def cdSet : List (Nat × Int) → Nat → Int → List (Nat × Int)
  | [], k, v => [(k, v)]
  | q :: qs, k, v => if q.1 == k then (k, v) :: qs else q :: cdSet qs k v

/-- Lookup of a user's rate-limit deque, defaulting to the empty deque
(alerts.py:330-331). Oldest timestamp first, as in the deque. -/
def rlGet (m : List (Nat × List Int)) (u : Nat) : List Int :=
  match m.find? (fun q => q.1 == u) with
  | some q => q.2
  | none => []

/-- Store a user's rate-limit deque. -/
def rlSet : List (Nat × List Int) → Nat → List Int → List (Nat × List Int)
  | [], u, d => [(u, d)]
  | q :: qs, u, d => if q.1 == u then (u, d) :: qs else q :: rlSet qs u d

/-- AlertManager._check_cooldown (alerts.py:288-316): Up alerts always
pass; a payload with no link_id always passes; otherwise the alert is
suppressed when now minus the stored timestamp is below the cooldown
window, and on passing the timestamp is updated. Returns the decision and
the resulting cooldown map. -/
def check_cooldown (cfg : AlertConfig) (m : List (Nat × Int)) (p : AlertPayload)
    (now : Int) : Bool × List (Nat × Int) :=
  if p.alert_type == .up then (true, m)
  else
    match p.link_id with
    | none => (true, m)
    | some link_id =>
        let last_alert_time := cdGet m link_id
        if now - last_alert_time < cfg.cooldown_seconds then (false, m)
        else (true, cdSet m link_id now)

/-- AlertManager._check_rate_limit (alerts.py:322-346): prune timestamps
older than the sliding hour, refuse when the remaining count reached the
hourly cap, otherwise record this send. Returns the decision and the
resulting rate-limit map. -/
def check_rate_limit (cfg : AlertConfig) (m : List (Nat × List Int)) (user_id : Nat)
    (now : Int) : Bool × List (Nat × List Int) :=
  let window_start := now - 3600
  let dq := (rlGet m user_id).dropWhile (fun t => t < window_start)
  if dq.length >= cfg.max_alerts_per_hour then (false, rlSet m user_id dq)
  else (true, rlSet m user_id (dq ++ [now]))

/-- The Alert row columns written by _persist_alert and mark_as_sent. -/
structure AlertRow where
  user_id : Nat
  link_id : Option Nat
  alert_type : AlertKind
  sent : Bool
  sent_at : Option Int
  max_retries : Nat
  deriving Repr, DecidableEq

/-- AlertManager._persist_alert (alerts.py:352-388): the row is written
with sent as passed in and sent_at set only when sent is true. -/
def persist_alert (cfg : AlertConfig) (p : AlertPayload) (sent : Bool) (now : Int) : AlertRow :=
  { user_id := p.user_id
    link_id := p.link_id
    alert_type := p.alert_type
    sent := sent
    sent_at := if sent then some now else none
    max_retries := cfg.max_retries }

/-- Alert.mark_as_sent (models.py:718-721). -/
def mark_as_sent (r : AlertRow) (now : Int) : AlertRow :=
  { r with sent := true, sent_at := some now }

/-- The attempt loop of _send_telegram (alerts.py:413-441): try attempts
in order, return true at the first success; outcomes gives the result of
each attempt against the sink. -/
def send_attempts (outcomes : Nat → Bool) : Nat → Nat → Bool
  | 0, _ => false
  | fuel + 1, idx => if outcomes idx then true else send_attempts outcomes fuel (idx + 1)

/-- AlertManager._send_telegram (alerts.py:394-441): resolving the
Telegram user id can fail (then no attempt is made); otherwise up to
max_retries + 1 attempts are made, returning true on the first success. -/
def send_telegram (cfg : AlertConfig) (lookup_ok : Bool) (outcomes : Nat → Bool) : Bool :=
  if lookup_ok then send_attempts outcomes (cfg.max_retries + 1) 0 else false

/-- The AlertManager's two engine-local maps. -/
structure AlertState where
  cooldown_map : List (Nat × Int)
  rate_limit_map : List (Nat × List Int)
  deriving Repr, DecidableEq

/-- Outcome of _process_alert on one payload: the Alert row as it ends in
the database (none when suppressed), the resulting maps, and whether a
Telegram delivery was attempted / succeeded. -/
structure ProcessResult where
  persisted : Option AlertRow
  state : AlertState
  send_attempted : Bool
  send_succeeded : Bool
  deriving Repr, DecidableEq

/-- AlertManager._process_alert (alerts.py:244-282): cooldown, then rate
limit, then persist with sent = send_allowed, then (when allowed and a bot
is wired) deliver with retry and re-mark the row as sent on success. -/
def process_alert (cfg : AlertConfig) (st : AlertState) (p : AlertPayload) (now : Int)
    (bot_present : Bool) (lookup_ok : Bool) (outcomes : Nat → Bool) : ProcessResult :=
  let cd := check_cooldown cfg st.cooldown_map p now
  if !cd.1 then
    { persisted := none, state := { st with cooldown_map := cd.2 },
      send_attempted := false, send_succeeded := false }
  else
    let rl := check_rate_limit cfg st.rate_limit_map p.user_id now
    let send_allowed := rl.1
    let st1 : AlertState := { cooldown_map := cd.2, rate_limit_map := rl.2 }
    let row := persist_alert cfg p send_allowed now
    if send_allowed && bot_present then
      let ok := send_telegram cfg lookup_ok outcomes
      let row1 := if ok then mark_as_sent row now else row
      { persisted := some row1, state := st1, send_attempted := true, send_succeeded := ok }
    else
      { persisted := some row, state := st1, send_attempted := false, send_succeeded := false }

/-! ## Theorems about the alert pipeline (claims C1, C5, C10) -/

/-- When every delivery attempt fails, the retry loop reports failure. -/
lemma send_attempts_all_fail (outcomes : Nat → Bool) (h : ∀ k, outcomes k = false) :
    ∀ fuel idx, send_attempts outcomes fuel idx = false := by
  intro fuel
  induction fuel with
  | zero => intro idx; rfl
  | succ n ih =>
      intro idx
      unfold send_attempts
      rw [h idx]
      simpa using ih (idx + 1)

/-- The default AlertManager dispatch settings (settings.py defaults:
ALERT_COOLDOWN = 900, MAX_ALERTS_PER_HOUR = 10, ALERT_RETRY_COUNT = 3). -/
def defaultAlertConfig : AlertConfig :=
  { cooldown_seconds := 900, max_alerts_per_hour := 10, max_retries := 3 }

/-- Empty cooldown and rate-limit maps: the state at AlertManager start-up. -/
def emptyAlertState : AlertState := { cooldown_map := [], rate_limit_map := [] }

/-- A Down alert intent for link 1 of user 1. -/
def downPayload : AlertPayload := { user_id := 1, link_id := some 1, alert_type := .down }

/-- C1 counterexample: a Down alert that passes cooldown and rate limiting
and whose delivery fails on every one of the max_retries + 1 attempts is
persisted with sent = true, not sent = false as the claim states:
_process_alert writes the row with sent = send_allowed before delivering
(alerts.py:264) and nothing clears the flag when all attempts fail. -/
theorem process_alert_sent_flag_cex :
    ((process_alert defaultAlertConfig emptyAlertState downPayload 1000000 true true
        (fun _ => false)).persisted.map AlertRow.sent ≠ some false)
    ∧ ((process_alert defaultAlertConfig emptyAlertState downPayload 1000000 true true
        (fun _ => false)).persisted.map AlertRow.sent = some true)
    ∧ (process_alert defaultAlertConfig emptyAlertState downPayload 1000000 true true
        (fun _ => false)).send_attempted = true
    ∧ (process_alert defaultAlertConfig emptyAlertState downPayload 1000000 true true
        (fun _ => false)).send_succeeded = false := by
  refine ⟨?_, ?_, ?_, ?_⟩ <;> decide

/-- C1 amended: for every alert intent that passes cooldown and rate
limiting but whose delivery fails on every attempt, the persisted Alert row
ends with sent = true (the flag is set at persist time because delivery was
allowed, and is never reset on failure); the row is re-marked via
mark_as_sent only when an attempt succeeded, which is witnessed here by
send_succeeded = false. -/
theorem process_alert_sent_flag_after_failures (cfg : AlertConfig) (st : AlertState)
    (p : AlertPayload) (now : Int) (outcomes : Nat → Bool)
    (hcd : (check_cooldown cfg st.cooldown_map p now).1 = true)
    (hrl : (check_rate_limit cfg st.rate_limit_map p.user_id now).1 = true)
    (hfail : ∀ k, outcomes k = false) :
    ((process_alert cfg st p now true true outcomes).persisted.map AlertRow.sent = some true)
    ∧ (process_alert cfg st p now true true outcomes).send_succeeded = false := by
  unfold process_alert send_telegram
  simp only [hcd, hrl, send_attempts_all_fail outcomes hfail]
  simp [persist_alert]

/-- Witness: the amended C1 theorem applied to the default configuration,
empty maps, a Down alert for link 1 at epoch 1000000 with an always-failing
sink. -/
theorem process_alert_sent_flag_after_failures_witness :
    ((process_alert defaultAlertConfig emptyAlertState downPayload 1000000 true true
        (fun _ => false)).persisted.map AlertRow.sent = some true)
    ∧ (process_alert defaultAlertConfig emptyAlertState downPayload 1000000 true true
        (fun _ => false)).send_succeeded = false :=
  process_alert_sent_flag_after_failures defaultAlertConfig emptyAlertState downPayload
    1000000 (fun _ => false) (by decide) (by decide) (fun _ => rfl)

/-- An Up (recovery) alert intent for link 5 of user 2. -/
def upPayload : AlertPayload := { user_id := 2, link_id := some 5, alert_type := .up }

/-- C5 counterexample: an Up alert for link 5 is allowed through (it is
persisted), yet the cooldown map is left empty — the cooldown timestamp for
its target is not updated, refuting the claim's conjunct that the timestamp
is updated whenever an intent is allowed through (alerts.py:300-301 returns
before touching the map). -/
theorem up_alert_no_cooldown_update_cex :
    ((process_alert defaultAlertConfig emptyAlertState upPayload 1000 true true
        (fun _ => true)).persisted.isSome = true)
    ∧ (process_alert defaultAlertConfig emptyAlertState upPayload 1000 true true
        (fun _ => true)).state.cooldown_map = []
    ∧ cdGet (process_alert defaultAlertConfig emptyAlertState upPayload 1000 true true
        (fun _ => true)).state.cooldown_map 5 = 0 := by
  refine ⟨?_, ?_, ?_⟩ <;> decide

/-- C5 amended: (1) a Down, Slow or SSL-expiry intent with a target whose
stored cooldown timestamp is within the last cooldown_seconds is suppressed:
not persisted, not delivered, and the maps are unchanged; (2) an Up intent
is never suppressed by cooldown and leaves the cooldown map unchanged (so
no timestamp is recorded for it); (3) whenever a non-Up intent with a
non-null target is allowed through, the cooldown timestamp for its target
is updated to now. -/
theorem alert_cooldown_policy (cfg : AlertConfig) (st : AlertState) (p : AlertPayload)
    (now : Int) (bot_present lookup_ok : Bool) (outcomes : Nat → Bool) :
    ((p.alert_type = .down ∨ p.alert_type = .slow ∨ p.alert_type = .ssl_expiry) →
      ∀ l, p.link_id = some l →
        now - cdGet st.cooldown_map l < cfg.cooldown_seconds →
        (process_alert cfg st p now bot_present lookup_ok outcomes).persisted = none
        ∧ (process_alert cfg st p now bot_present lookup_ok outcomes).send_attempted = false
        ∧ (process_alert cfg st p now bot_present lookup_ok outcomes).state = st)
    ∧ (p.alert_type = .up →
        (process_alert cfg st p now bot_present lookup_ok outcomes).persisted.isSome = true
        ∧ (process_alert cfg st p now bot_present lookup_ok outcomes).state.cooldown_map
            = st.cooldown_map)
    ∧ (p.alert_type ≠ .up → ∀ l, p.link_id = some l →
        (process_alert cfg st p now bot_present lookup_ok outcomes).persisted.isSome = true →
        (process_alert cfg st p now bot_present lookup_ok outcomes).state.cooldown_map
          = cdSet st.cooldown_map l now) := by
  refine ⟨?_, ?_, ?_⟩
  · rintro hk l hl hwin
    have hne : ¬ p.alert_type = .up := by
      rcases hk with h | h | h <;> simp [h]
    unfold process_alert check_cooldown
    simp only [hl, beq_iff_eq, if_neg hne, if_pos hwin]
    simp
  · intro hup
    unfold process_alert check_cooldown
    simp [hup]
    constructor <;> split <;> rfl
  · rintro hne l hl hall
    by_cases hwin : now - cdGet st.cooldown_map l < cfg.cooldown_seconds
    · exfalso
      unfold process_alert check_cooldown at hall
      simp [hl, hne, hwin] at hall
    · unfold process_alert check_cooldown
      simp [hl, hne, hwin]
      split <;> rfl

/-- Witness: the amended C5 theorem at the default configuration: a Down
alert for link 1 is suppressed when the stored timestamp 999900 is within
the 900-second window of now = 1000000. -/
theorem alert_cooldown_policy_witness :
    (process_alert defaultAlertConfig
        { cooldown_map := [(1, 999900)], rate_limit_map := [] } downPayload 1000000
        true true (fun _ => true)).persisted = none
    ∧ (process_alert defaultAlertConfig
        { cooldown_map := [(1, 999900)], rate_limit_map := [] } downPayload 1000000
        true true (fun _ => true)).send_attempted = false
    ∧ (process_alert defaultAlertConfig
        { cooldown_map := [(1, 999900)], rate_limit_map := [] } downPayload 1000000
        true true (fun _ => true)).state
        = { cooldown_map := [(1, 999900)], rate_limit_map := [] } :=
  (alert_cooldown_policy defaultAlertConfig
      { cooldown_map := [(1, 999900)], rate_limit_map := [] } downPayload 1000000
      true true (fun _ => true)).1 (Or.inl rfl) 1 rfl (by decide)

/-- C10: an alert intent whose link_id is null — of any kind — always
passes the cooldown check, leaves the cooldown map unchanged, and is
therefore never suppressed by cooldown: _check_cooldown returns early both
for Up alerts and when link_id is None (alerts.py:300-306). -/
theorem null_link_bypasses_cooldown (cfg : AlertConfig) (st : AlertState) (p : AlertPayload)
    (now : Int) (bot_present lookup_ok : Bool) (outcomes : Nat → Bool)
    (h : p.link_id = none) :
    check_cooldown cfg st.cooldown_map p now = (true, st.cooldown_map)
    ∧ (process_alert cfg st p now bot_present lookup_ok outcomes).persisted.isSome = true
    ∧ (process_alert cfg st p now bot_present lookup_ok outcomes).state.cooldown_map
        = st.cooldown_map := by
  have hcc : check_cooldown cfg st.cooldown_map p now = (true, st.cooldown_map) := by
    unfold check_cooldown
    split
    · rfl
    · rw [h]
  refine ⟨hcc, ?_, ?_⟩ <;>
    · unfold process_alert
      rw [hcc]
      dsimp only
      repeat' split
      all_goals simp_all

/-- Witness: C10 applied to a Down alert with no link id: it passes
cooldown against a non-trivial map and the map is unchanged. -/
theorem null_link_bypasses_cooldown_witness :
    check_cooldown defaultAlertConfig [(7, 999999)]
        { user_id := 3, link_id := none, alert_type := .down } 1000000 = (true, [(7, 999999)])
    ∧ (process_alert defaultAlertConfig
        { cooldown_map := [(7, 999999)], rate_limit_map := [] }
        { user_id := 3, link_id := none, alert_type := .down } 1000000
        true true (fun _ => true)).persisted.isSome = true
    ∧ (process_alert defaultAlertConfig
        { cooldown_map := [(7, 999999)], rate_limit_map := [] }
        { user_id := 3, link_id := none, alert_type := .down } 1000000
        true true (fun _ => true)).state.cooldown_map = [(7, 999999)] :=
  null_link_bypasses_cooldown defaultAlertConfig
    { cooldown_map := [(7, 999999)], rate_limit_map := [] }
    { user_id := 3, link_id := none, alert_type := .down } 1000000
    true true (fun _ => true) rfl

/-! ## The HTTP checker (src/monitoring/monitor.py, class HTTPChecker)

The network is abstracted by an environment mapping the attempt index to
what that attempt yields: a full response (status code and body), one of
the retried transport errors (connect timeout, read timeout, connection
error, or any other unexpected exception), or one of the errors that end
the probe at once (an explicit httpx.HTTPStatusError or a TLS certificate
verification failure). The exact exception class name of an unexpected
error is abstracted to the token "UnexpectedError". -/

/-- One attempt against the target as seen by HTTPChecker.check. -/
inductive HTTPAttempt where
  | response (status : Nat) (body : String)
  | connectTimeout
  | readTimeout
  | connectError
  | httpStatusError (status : Nat)
  | sslCertVerificationError
  | otherError
  deriving Repr, DecidableEq

/-- The HTTPChecker settings read in __init__ (monitor.py:128-132):
settings.MAX_RETRIES and settings.RETRY_DELAY. -/
structure HTTPCheckerConfig where
  max_retries : Nat
  retry_delay : Nat
  deriving Repr, DecidableEq

/-- The success evaluation of a received response (monitor.py:151 and
monitor.py:188-194): the effective expected codes fall back to [200] when
the link's list is empty (Python truthiness on the column value), and the
content check runs only when expected_content is truthy and the status
code matched. -/
def http_success (codes : List Nat) (content : Option String) (status : Nat)
    (body : String) : Bool :=
  let expected := if codes.isEmpty then [200] else codes
  let code_ok := expected.contains status
  let content_ok :=
    if optStrTruthy content && code_ok then strIn (content.getD "") body else true
  code_ok && content_ok

/-- The specification's success criterion, written from its words: success
iff the status code is in the target's expectedStatusCodes set and either
expectedContent is null or expectedContent is a substring of the body. -/
def http_success_spec (codes : List Nat) (content : Option String) (status : Nat)
    (body : String) : Prop :=
  status ∈ codes ∧ (content = none ∨ ∃ s, content = some s ∧ strIn s body = true)

/-- The four except branches that fall through to the retry logic
(monitor.py:224-253 and 279-288). -/
def isTransientAttempt : HTTPAttempt → Bool
  | .connectTimeout => true
  | .readTimeout => true
  | .connectError => true
  | .otherError => true
  | .response _ _ => false
  | .httpStatusError _ => false
  | .sslCertVerificationError => false

/-- The error_type token recorded for a transient attempt. -/
def attemptErrorName : HTTPAttempt → String
  | .connectTimeout => "ConnectTimeout"
  | .readTimeout => "ReadTimeout"
  | .connectError => "ConnectError"
  | _ => "UnexpectedError"

/-- The observable outcome of HTTPChecker.check: the CheckResult fields the
claims are about, the number of attempts made against the target, and the
sequence of back-off sleeps performed between attempts. -/
structure HTTPCheckOutcome where
  success : Bool
  status_code : Option Nat
  error_type : Option String
  retry_count : Nat
  attempts : Nat
  delays : List Nat
  deriving Repr, DecidableEq

/-- The attempt loop of HTTPChecker.check (monitor.py:162-309). fuel is the
number of loop iterations left (the loop runs max_retries + 1 times), idx
the current attempt index. A response returns immediately whether or not
its status/content were expected (monitor.py:215 and 222); HTTPStatusError
and SSLCertVerificationError return immediately (monitor.py:265 and 278);
the transient errors fall to the retry logic, which sleeps
retry_delay * 2^(retry_count - 1) while retry_count <= max_retries
(monitor.py:290-302). The fuel-0 fallback is the defensive
"should never reach here" result of monitor.py:305. -/
def http_check_go (cfg : HTTPCheckerConfig) (codes : List Nat) (content : Option String)
    (env : Nat → HTTPAttempt) : Nat → Nat → HTTPCheckOutcome
  | 0, idx =>
      { success := false, status_code := none, error_type := some "UnknownError",
        retry_count := idx, attempts := idx, delays := [] }
  | fuel + 1, idx =>
      match env idx with
      | .response status body =>
          { success := http_success codes content status body,
            status_code := some status, error_type := none,
            retry_count := idx, attempts := idx + 1, delays := [] }
      | .httpStatusError status =>
          { success := false, status_code := some status,
            error_type := some "HTTPStatusError",
            retry_count := idx, attempts := idx + 1, delays := [] }
      | .sslCertVerificationError =>
          { success := false, status_code := none, error_type := some "SSLError",
            retry_count := idx, attempts := idx + 1, delays := [] }
      | .connectTimeout =>
          if idx + 1 ≤ cfg.max_retries then
            let r := http_check_go cfg codes content env fuel (idx + 1)
            { r with delays := cfg.retry_delay * 2 ^ idx :: r.delays }
          else
            { success := false, status_code := none,
              error_type := some (attemptErrorName .connectTimeout),
              retry_count := idx, attempts := idx + 1, delays := [] }
      | .readTimeout =>
          if idx + 1 ≤ cfg.max_retries then
            let r := http_check_go cfg codes content env fuel (idx + 1)
            { r with delays := cfg.retry_delay * 2 ^ idx :: r.delays }
          else
            { success := false, status_code := none,
              error_type := some (attemptErrorName .readTimeout),
              retry_count := idx, attempts := idx + 1, delays := [] }
      | .connectError =>
          if idx + 1 ≤ cfg.max_retries then
            let r := http_check_go cfg codes content env fuel (idx + 1)
            { r with delays := cfg.retry_delay * 2 ^ idx :: r.delays }
          else
            { success := false, status_code := none,
              error_type := some (attemptErrorName .connectError),
              retry_count := idx, attempts := idx + 1, delays := [] }
      | .otherError =>
          if idx + 1 ≤ cfg.max_retries then
            let r := http_check_go cfg codes content env fuel (idx + 1)
            { r with delays := cfg.retry_delay * 2 ^ idx :: r.delays }
          else
            { success := false, status_code := none,
              error_type := some (attemptErrorName .otherError),
              retry_count := idx, attempts := idx + 1, delays := [] }

/-- HTTPChecker.check on one link: run the loop for max_retries + 1
attempts starting at index 0. -/
def http_check (cfg : HTTPCheckerConfig) (codes : List Nat) (content : Option String)
    (env : Nat → HTTPAttempt) : HTTPCheckOutcome :=
  http_check_go cfg codes content env (cfg.max_retries + 1) 0

/-! ## Theorems about the HTTP checker (claims C4 and C6) -/

lemma headMatch_nil (l : List Char) : headMatch [] l = true := by
  cases l <;> rfl

/-- The empty string is a substring of every body. -/
lemma strIn_empty (body : String) : strIn "" body = true := by
  show subOccurs [] body.data = true
  cases body.data <;> simp [subOccurs, headMatch_nil]

/-- C4 counterexample: for a target whose expected_status_codes list is
empty, a response with status 200 is judged successful even though 200 is
not in the target's expectedStatusCodes set: monitor.py:151 silently
substitutes [200] for a falsy list. -/
theorem http_success_empty_codes_cex :
    http_success [] none 200 "" = true ∧ ¬ http_success_spec [] none 200 "" := by
  constructor
  · rfl
  · rintro ⟨h, -⟩
    simp at h

/-- C4 amended: for every HTTP probe that receives a response, the success
flag is true iff the status code is in the effective expected set — the
target's expectedStatusCodes when that list is non-empty, [200] otherwise —
and either expectedContent is null or expectedContent is a substring of the
body (the empty string counts as a substring of every body, matching the
Python truthiness test on expected_content). -/
theorem http_success_matches_spec (codes : List Nat) (content : Option String)
    (status : Nat) (body : String) :
    http_success codes content status body = true
      ↔ http_success_spec (if codes.isEmpty then [200] else codes) content status body := by
  unfold http_success http_success_spec
  set expected := if codes.isEmpty then [200] else codes with hexp
  by_cases hcode : expected.contains status = true
  · have hmem : status ∈ expected := List.elem_iff.mp hcode
    rcases content with _ | s
    · simp [optStrTruthy, hcode, hmem]
    · by_cases hs : s.isEmpty
      · have hs' : s = "" := (String.isEmpty_iff s).mp hs
        subst hs'
        constructor
        · intro _
          exact ⟨hmem, Or.inr ⟨"", rfl, strIn_empty body⟩⟩
        · intro _
          have htv : optStrTruthy (some "") = false := by decide
          simp [htv, hcode, hmem]
      · simp [optStrTruthy, hs, hcode, hmem]
  · have hmem : status ∉ expected := fun hm => hcode (List.elem_iff.mpr hm)
    have hcf : expected.contains status = false := by
      cases hx : expected.contains status
      · rfl
      · exact absurd hx hcode
    simp [optStrTruthy, hcf, hmem]

/-- All-transient runs exhaust the loop: starting at attempt idx with the
remaining fuel, when every attempt up to max_retries is transient, the
checker makes all max_retries + 1 attempts, sleeps exactly the exponential
back-off sequence for the remaining retries, and fails. -/
lemma http_check_go_all_transient (cfg : HTTPCheckerConfig) (codes : List Nat)
    (content : Option String) (env : Nat → HTTPAttempt) :
    ∀ fuel idx, idx + fuel = cfg.max_retries + 1 →
      (∀ i, idx ≤ i → i ≤ cfg.max_retries → isTransientAttempt (env i) = true) →
      (http_check_go cfg codes content env fuel idx).attempts = cfg.max_retries + 1
      ∧ (http_check_go cfg codes content env fuel idx).delays
          = (List.range' idx (cfg.max_retries - idx)).map (fun k => cfg.retry_delay * 2 ^ k)
      ∧ (http_check_go cfg codes content env fuel idx).success = false := by
  intro fuel
  induction fuel with
  | zero =>
      intro idx hsum htr
      have h0 : cfg.max_retries - idx = 0 := by omega
      refine ⟨?_, ?_, ?_⟩ <;> simp [http_check_go, h0] <;> omega
  | succ n ih =>
      intro idx hsum htr
      have hidx : idx ≤ cfg.max_retries := by omega
      have htri : isTransientAttempt (env idx) = true := htr idx le_rfl hidx
      cases henv : env idx
      all_goals rw [henv] at htri
      all_goals first
        | exact absurd htri Bool.false_ne_true
        | (simp only [http_check_go, henv]
           by_cases hle : idx + 1 ≤ cfg.max_retries
           · obtain ⟨ih1, ih2, ih3⟩ := ih (idx + 1) (by omega)
               (fun i h1 h2 => htr i (by omega) h2)
             have hsplit : cfg.max_retries - idx = (cfg.max_retries - (idx + 1)) + 1 := by
               omega
             have hrange : List.range' idx (cfg.max_retries - idx)
                 = idx :: List.range' (idx + 1) (cfg.max_retries - (idx + 1)) := by
               rw [hsplit]
               simpa using List.range'_succ idx (cfg.max_retries - (idx + 1)) 1
             simp [hle, ih1, ih2, ih3, hrange]
           · have heq : idx = cfg.max_retries := by omega
             have h0 : cfg.max_retries - idx = 0 := by omega
             simp [hle, heq, h0])

/-- A terminal attempt (response, HTTPStatusError or TLS verification
failure) at index j, after transient attempts before it, ends the probe at
attempt j + 1 with only the back-off sleeps of the earlier retries. -/
lemma http_check_go_terminal (cfg : HTTPCheckerConfig) (codes : List Nat)
    (content : Option String) (env : Nat → HTTPAttempt) :
    ∀ fuel idx j, idx + fuel = cfg.max_retries + 1 → idx ≤ j → j ≤ cfg.max_retries →
      (∀ i, idx ≤ i → i < j → isTransientAttempt (env i) = true) →
      isTransientAttempt (env j) = false →
      (http_check_go cfg codes content env fuel idx).attempts = j + 1
      ∧ (http_check_go cfg codes content env fuel idx).delays
          = (List.range' idx (j - idx)).map (fun k => cfg.retry_delay * 2 ^ k) := by
  intro fuel
  induction fuel with
  | zero =>
      intro idx j hsum hij hjm htr hterm
      omega
  | succ n ih =>
      intro idx j hsum hij hjm htr hterm
      by_cases hj : idx = j
      · subst hj
        cases henv : env idx
        all_goals rw [henv] at hterm
        all_goals first
          | exact Bool.noConfusion hterm
          | (simp only [http_check_go, henv]
             simp)
      · have hlt : idx < j := lt_of_le_of_ne hij hj
        have htri : isTransientAttempt (env idx) = true := htr idx le_rfl hlt
        have hle : idx + 1 ≤ cfg.max_retries := by omega
        cases henv : env idx
        all_goals rw [henv] at htri
        all_goals first
          | exact absurd htri Bool.false_ne_true
          | (simp only [http_check_go, henv]
             obtain ⟨ih1, ih2⟩ := ih (idx + 1) j (by omega) (by omega) hjm
               (fun i h1 h2 => htr i (by omega) h2) hterm
             have hsplit : j - idx = (j - (idx + 1)) + 1 := by omega
             have hrange : List.range' idx (j - idx)
                 = idx :: List.range' (idx + 1) (j - (idx + 1)) := by
               rw [hsplit]
               simpa using List.range'_succ idx (j - (idx + 1)) 1
             simp [hle, ih1, ih2, hrange])

/-- C6: for every HTTP probe attempt sequence, (a) when every attempt up to
max_retries yields a transient network/timeout error, the checker retries
through all max_retries additional attempts, sleeping the exponential
back-off delays retry_delay * 2^k for k = 0..max_retries-1 (the delay
doubles each retry), and reports failure; (b) a terminal attempt — a
received response (whatever its status code), an explicit HTTP status
error, or a TLS certificate verification failure — at index j ends the
probe immediately at attempt j + 1 with no further retry and no further
back-off sleep. -/
theorem http_retry_policy (cfg : HTTPCheckerConfig) (codes : List Nat)
    (content : Option String) (env : Nat → HTTPAttempt) :
    ((∀ i, i ≤ cfg.max_retries → isTransientAttempt (env i) = true) →
        (http_check cfg codes content env).attempts = cfg.max_retries + 1
        ∧ (http_check cfg codes content env).delays
            = (List.range cfg.max_retries).map (fun k => cfg.retry_delay * 2 ^ k)
        ∧ (http_check cfg codes content env).success = false)
    ∧ (∀ j, j ≤ cfg.max_retries →
        (∀ i, i < j → isTransientAttempt (env i) = true) →
        isTransientAttempt (env j) = false →
        (http_check cfg codes content env).attempts = j + 1
        ∧ (http_check cfg codes content env).delays
            = (List.range j).map (fun k => cfg.retry_delay * 2 ^ k)) := by
  constructor
  · intro htr
    have h := http_check_go_all_transient cfg codes content env (cfg.max_retries + 1) 0
      (by omega) (fun i h1 h2 => htr i h2)
    simpa [http_check, List.range_eq_range'] using h
  · intro j hjm htr hterm
    have h := http_check_go_terminal cfg codes content env (cfg.max_retries + 1) 0 j
      (by omega) (by omega) hjm (fun i h1 h2 => htr i h2) hterm
    simpa [http_check, List.range_eq_range'] using h

/-- A concrete attempt sequence: connect timeout, then read timeout, then a
200 response. -/
def sampleEnv : Nat → HTTPAttempt
  | 0 => .connectTimeout
  | 1 => .readTimeout
  | _ => .response 200 "ok"

/-- The engine retry settings max_retries = 3, retry_delay = 5
(settings.py defaults MAX_RETRIES = 3, RETRY_DELAY = 5). -/
def sampleHTTPConfig : HTTPCheckerConfig := { max_retries := 3, retry_delay := 5 }

/-- Witness: the retry-policy theorem applied to a run with two transient
errors followed by a response at attempt index 2: three attempts are made
and the sleeps are 5 s then 10 s. -/
theorem http_retry_policy_witness :
    (http_check sampleHTTPConfig [200] none sampleEnv).attempts = 3
    ∧ (http_check sampleHTTPConfig [200] none sampleEnv).delays = [5, 10] := by
  have h := (http_retry_policy sampleHTTPConfig [200] none sampleEnv).2 2
    (by decide) (by decide) (by decide)
  refine ⟨h.1, ?_⟩
  rw [h.2]
  decide

/-! ## The periodic job scheduler (src/monitoring/scheduler.py, class Scheduler) -/

/-- The registry fields of one ScheduledJob that the main loop reads and
writes (scheduler.py:63-94). -/
structure ScheduledJob where
  interval_seconds : Nat
  enabled : Bool := true
  next_run : Nat
  deriving Repr, DecidableEq

/-- The observable scheduling state of one registered job: its registry
entry, the number of launched executions that have not yet finished, and
the launch times in order. -/
structure JobSchedState where
  job : ScheduledJob
  running : Nat := 0
  launches : List Nat := []
  deriving Repr, DecidableEq

/-- Events affecting one job: a tick of the main loop at time now, or the
completion of one of its running executions. -/
inductive SchedEvent where
  | tick (now : Nat)
  | finish
  deriving Repr, DecidableEq

/-- One event against Scheduler._main_loop (scheduler.py:221-228): on a
tick, when the job is enabled and now has reached next_run, a new
execution is launched as a fire-and-forget task — with no check of
whether the previous execution is still running — and next_run is
advanced to now + interval_seconds. A finish event retires one running
execution (scheduler.py:241-264). -/
def schedStep (s : JobSchedState) : SchedEvent → JobSchedState
  | .tick now =>
      if s.job.enabled && decide (s.job.next_run ≤ now) then
        { job := { s.job with next_run := now + s.job.interval_seconds },
          running := s.running + 1,
          launches := s.launches ++ [now] }
      else s
  | .finish => { s with running := s.running - 1 }

/-- A sequence of main-loop ticks and job completions. -/
def schedRun (s : JobSchedState) : List SchedEvent → JobSchedState
  | [] => s
  | e :: es => schedRun (schedStep s e) es

/-- Scheduler.register_job (scheduler.py:163-169): the entry starts
enabled with next_run = now, so it runs on the first tick. -/
def registerJob (interval_seconds : Nat) (now : Nat) : JobSchedState :=
  { job := { interval_seconds := interval_seconds, enabled := true, next_run := now } }

/-! ## Theorems about the scheduler (claim C8) -/

/-- C8 counterexample: a job with a 300 s period is launched at t = 0; the
run has not finished when the tick at t = 300 arrives, and the main loop
launches a second concurrent instance anyway — two instances of the same
job execute at once. _main_loop fires jobs with asyncio.create_task and
never checks whether the previous run finished (scheduler.py:226). -/
theorem scheduler_overlap_cex :
    (schedRun (registerJob 300 0) [.tick 0, .tick 300]).running = 2 := by
  decide

/-- Single-step preservation of the launch-spacing invariant. -/
lemma schedStep_spacing (iv : Nat) (s : JobSchedState) (e : SchedEvent)
    (h0 : s.job.interval_seconds = iv)
    (h1 : List.Chain' (fun a b => a + iv ≤ b) s.launches)
    (h2 : ∀ t ∈ s.launches, t + iv ≤ s.job.next_run) :
    (schedStep s e).job.interval_seconds = iv
    ∧ List.Chain' (fun a b => a + iv ≤ b) (schedStep s e).launches
    ∧ (∀ t ∈ (schedStep s e).launches, t + iv ≤ (schedStep s e).job.next_run) := by
  cases e with
  | finish => exact ⟨h0, h1, h2⟩
  | tick now =>
      simp only [schedStep]
      split
      case isFalse h => exact ⟨h0, h1, h2⟩
      case isTrue h =>
        have hle : s.job.next_run ≤ now := by
          have := (Bool.and_eq_true _ _).mp h
          simpa using this.2
        refine ⟨h0, ?_, ?_⟩
        · apply List.Chain'.append h1 (List.chain'_singleton now)
          intro x hx y hy
          simp at hy
          subst hy
          have hx' : x ∈ s.launches := List.mem_of_mem_getLast? hx
          have := h2 x hx'
          omega
        · intro t ht
          rcases List.mem_append.mp ht with h | h
          · have := h2 t h
            simp only [h0] at *
            omega
          · simp at h
            subst h
            simp [h0]
  
/-- C8 amended: the scheduler does not suppress overlapping runs — it
launches a new instance of a due job regardless of whether the previous
instance finished. What holds instead is the launch-cadence bound: because
next_run is advanced to now + interval_seconds at every launch, any two
consecutive launches of the same job are at least interval_seconds apart. -/
theorem scheduler_launch_spacing (interval_seconds now0 : Nat) (evs : List SchedEvent) :
    List.Chain' (fun a b => a + interval_seconds ≤ b)
      (schedRun (registerJob interval_seconds now0) evs).launches := by
  suffices h : ∀ (es : List SchedEvent) (s : JobSchedState),
      s.job.interval_seconds = interval_seconds →
      List.Chain' (fun a b => a + interval_seconds ≤ b) s.launches →
      (∀ t ∈ s.launches, t + interval_seconds ≤ s.job.next_run) →
      List.Chain' (fun a b => a + interval_seconds ≤ b) (schedRun s es).launches by
    exact h evs (registerJob interval_seconds now0) rfl List.chain'_nil (by simp [registerJob])
  intro es
  induction es with
  | nil => intro s h0 h1 h2; exact h1
  | cons e es ih =>
      intro s h0 h1 h2
      obtain ⟨g0, g1, g2⟩ := schedStep_spacing interval_seconds s e h0 h1 h2
      exact ih (schedStep s e) g0 g1 g2

/-! ## Daily statistics aggregation (scheduler.py:345-456, Scheduler._job_stats_aggregation)

The job reads the users and monitored_links tables, computes the aggregate
counters, and upserts the Statistics row whose date column equals today
(midnight-truncated). The database is a triple of the three tables; the
SQL aggregates are computed over the in-memory lists. -/

/-- database.models.UserStatus. -/
inductive UserStatus where
  | active
  | inactive
  | suspended
  | banned
  | pending
  deriving Repr, DecidableEq

/-- The users-table columns read by the aggregation job. -/
structure SUser where
  status : UserStatus
  is_premium : Bool
  deriving Repr, DecidableEq

/-- The Statistics row (models.py:812-853): date plus the counter columns;
columns the aggregation never writes (new_users, total_alerts,
alerts_sent) keep their defaults. -/
structure StatisticsRow where
  date : Nat
  total_users : Nat := 0
  active_users : Nat := 0
  premium_users : Nat := 0
  new_users : Nat := 0
  total_links : Nat := 0
  active_links : Nat := 0
  up_links : Nat := 0
  down_links : Nat := 0
  total_checks : Nat := 0
  successful_checks : Nat := 0
  failed_checks : Nat := 0
  total_alerts : Nat := 0
  alerts_sent : Nat := 0
  avg_response_time : Option Rat := none
  total_downtime_seconds : Nat := 0
  deriving Repr, DecidableEq

/-- SQL AVG(avg_response_time) over links where the column is not null
(scheduler.py:397-401): null when no link carries a value. -/
def aggAvgResp (links : List MonitoredLink) : Option Rat :=
  let vals := links.filterMap (fun l => l.avg_response_time)
  if vals.isEmpty then none
  else some (vals.foldr (· + ·) 0 / (vals.length : Rat))

/-- The value stored in the row: float(avg_resp) if avg_resp else None
(scheduler.py:427 and 442) — Python truthiness maps both NULL and 0.0 to
None. -/
def storedAvgResp (links : List MonitoredLink) : Option Rat :=
  match aggAvgResp links with
  | none => none
  | some v => if v == 0 then none else some v

/-- Assign the computed aggregates into a Statistics row
(scheduler.py:352-428: the counts over users and links, the check sums
taken from the link counters, the average response time and the total
downtime). Fields not listed keep their previous values, mirroring the
update branch; the insert branch applies this to a fresh default row. -/
def applyAgg (users : List SUser) (links : List MonitoredLink) (r : StatisticsRow) :
    StatisticsRow :=
  let active_links := links.countP (fun l => l.is_active)
  let up_links := links.countP (fun l => l.is_active && l.is_up)
  { r with
    total_users := users.length,
    active_users := users.countP (fun u => u.status == UserStatus.active),
    premium_users := users.countP (fun u => u.is_premium),
    total_links := links.length,
    active_links := active_links,
    up_links := up_links,
    down_links := active_links - up_links,
    total_checks := (links.map (fun l => l.total_checks)).sum,
    successful_checks := (links.map (fun l => l.successful_checks)).sum,
    failed_checks := (links.map (fun l => l.failed_checks)).sum,
    avg_response_time := storedAvgResp links,
    total_downtime_seconds := (links.map (fun l => l.total_downtime_seconds)).sum }

/-- The upsert (scheduler.py:412-445): update the first row whose date is
today, else append a fresh row built from the defaults. -/
def upsertStats (users : List SUser) (links : List MonitoredLink) (today : Nat) :
    List StatisticsRow → List StatisticsRow
  | [] => [applyAgg users links { date := today }]
  | r :: rs =>
      if r.date == today then applyAgg users links r :: rs
      else r :: upsertStats users links today rs

/-- The three tables the aggregation job touches. -/
structure StatsDB where
  users : List SUser
  links : List MonitoredLink
  stats : List StatisticsRow
  deriving Repr, DecidableEq

/-- Scheduler._job_stats_aggregation (scheduler.py:345-456) as a database
transformation: the users and links tables are only read; the stats table
is upserted for today. -/
def stats_aggregation (db : StatsDB) (today : Nat) : StatsDB :=
  { db with stats := upsertStats db.users db.links today db.stats }

/-! ## Theorems about the aggregation job (claim C9) -/

/-- Assigning the aggregates does not change the row's date. -/
lemma applyAgg_date (users : List SUser) (links : List MonitoredLink) (r : StatisticsRow) :
    (applyAgg users links r).date = r.date := rfl

/-- Assigning the same aggregates twice equals assigning them once. -/
lemma applyAgg_idem (users : List SUser) (links : List MonitoredLink) (r : StatisticsRow) :
    applyAgg users links (applyAgg users links r) = applyAgg users links r := rfl

/-- The upsert is idempotent for a fixed snapshot of users and links. -/
lemma upsertStats_idem (users : List SUser) (links : List MonitoredLink) (today : Nat) :
    ∀ s, upsertStats users links today (upsertStats users links today s)
      = upsertStats users links today s := by
  intro s
  induction s with
  | nil =>
      simp [upsertStats, applyAgg_date, applyAgg_idem]
  | cons r rs ih =>
      by_cases h : r.date == today
      · simp [upsertStats, h, applyAgg_date, applyAgg_idem]
      · simp [upsertStats, h, ih]

/-- C9: the daily statistics aggregation is idempotent — with no
intervening change to the users, links or stats tables, running the job
twice leaves exactly the same database (and hence the same DailyStats row
for today) as running it once. -/
theorem stats_aggregation_idempotent (db : StatsDB) (today : Nat) :
    stats_aggregation (stats_aggregation db today) today = stats_aggregation db today := by
  unfold stats_aggregation
  simp only []
  rw [upsertStats_idem]

/-! ## Engine shutdown (src/monitoring/monitor.py, MonitoringEngine.stop)

stop() (monitor.py:768-781) sets _running = False and then calls
self._sweep_task.cancel() and awaits the task. When probe tasks are in
flight, the sweep task is suspended at the await of
asyncio.gather(*tasks, return_exceptions=True) inside _do_sweep
(monitor.py:838). Per asyncio semantics, cancelling a task that awaits a
gather cancels every child task that is not yet done; each cancelled
probe task receives CancelledError at its current await point, and since
CancelledError is not an Exception in Python >= 3.8, neither the handler
in _run_single_check (monitor.py:906: except Exception) nor the ones in
the checkers catch it — the probe aborts without writing its PingLog or
updating the link. The model below embeds exactly this: a probe task is
at its network await or at its PingLog-write await or done; stopping the
engine cancels every probe that is not done, and a cancelled task never
takes another step. -/

/-- Where an in-flight probe task created by _do_sweep currently is. -/
inductive ProbeTask where
  | awaiting_check
  | awaiting_record
  | done
  | cancelled
  deriving Repr, DecidableEq

/-- The engine state: the running flag, the in-flight probe tasks of the
current sweep, and the number of PingLog rows they have written. -/
structure EngineState where
  running : Bool
  probes : List ProbeTask
  logs : Nat
  deriving Repr, DecidableEq

/-- One cooperative step of one probe task: its network await completes,
then its PingLog insert commits (writing one row) and the task is done. A
done or cancelled task takes no further steps. -/
def probeAdvance : ProbeTask → ProbeTask × Nat
  | .awaiting_check => (.awaiting_record, 0)
  | .awaiting_record => (.done, 1)
  | .done => (.done, 0)
  | .cancelled => (.cancelled, 0)

/-- Advance the probe task at index i by one step. -/
def engineStep (s : EngineState) (i : Nat) : EngineState :=
  match s.probes.get? i with
  | some t =>
      let a := probeAdvance t
      { s with probes := s.probes.set i a.1, logs := s.logs + a.2 }
  | none => s

/-- Run the engine under a schedule of probe steps. -/
def engineRun (s : EngineState) : List Nat → EngineState
  | [] => s
  | i :: is => engineRun (engineStep s i) is

/-- MonitoringEngine.stop (monitor.py:768-781) while _do_sweep awaits the
gather: _running := False, and the cancellation of the sweep task
propagates through asyncio.gather to every probe task that is not yet
done. -/
def stopEngine (s : EngineState) : EngineState :=
  { s with
    running := false,
    probes := s.probes.map (fun t =>
      match t with
      | .done => .done
      | _ => .cancelled) }

/-- C2 evaluation at the failing scenario: one probe task is in flight at
its network await with no PingLog written yet; stop() cancels it, and
however execution continues afterwards, the started probe never produces
its ProbeLog — its log count stays 0 — contradicting the claim (and the
stop() docstring) that in-flight probes complete and write their logs. -/
theorem stop_cancels_inflight_probe :
    (stopEngine { running := true, probes := [.awaiting_check], logs := 0 }).probes
      = [.cancelled]
    ∧ ∀ steps : List Nat,
        (engineRun (stopEngine { running := true, probes := [.awaiting_check], logs := 0 })
          steps).logs = 0 := by
  constructor
  · rfl
  · have hfix : ∀ i, engineStep { running := false, probes := [.cancelled], logs := 0 } i
        = { running := false, probes := [.cancelled], logs := 0 } := by
      intro i
      cases i with
      | zero => rfl
      | succ n => rfl
    intro steps
    show (engineRun { running := false, probes := [.cancelled], logs := 0 } steps).logs = 0
    induction steps with
    | nil => rfl
    | cons i is ih =>
        show (engineRun (engineStep { running := false, probes := [.cancelled], logs := 0 } i) is).logs = 0
        rw [hfix i]
        exact ih

end UptimeBot
